import Mathlib

/-!
Shallow embedding of the reactive pipe library in `src/Pipe.ts`
(classes `Pipe`, `State`, `PipeProjection`, `PipeCombiner`,
`PipeArrayFilter`, `PipeMonitor` of the later iteration, and
`MappedPipe` of the earlier `PipeBase` iteration), together with
proofs of the behavioural properties claimed for it.

Modelling conventions:
* A pipe object graph is a `World`: a list of `Node`s addressed by
  position.  Listener closures become the inductive `LAction`
  (user callbacks are identified by a number standing for the
  function reference; each internally created `_ => this.notify()`
  closure carries a fresh `ref` so that two of them never compare
  equal, exactly like distinct JS closures).
* JavaScript's sparse listener arrays (`_listeners[token] = l`,
  `delete _listeners[token]`) are `List (Option LAction)` with the
  position as token; `for (const l of this._listeners)` visits every
  slot including holes, and calling the `undefined` found in a hole
  raises a TypeError, modelled by the `err` flag of the world.
* Strict equality `!==` on values is modelled by structural equality
  on `Val`; this agrees with JS on the primitive values used here and
  on lists whose contents differ.
* Synchronous recursive notification is run with explicit fuel;
  every scenario below uses ample fuel for its finite graph.
* `dispose` is not modelled: no claim below concerns it.
-/

namespace PleasePipe

/-- Values held by pipes: numbers, booleans, lists of numbers, the
list-of-pipes value of a combiner, and JS `undefined`. -/
inductive Val where
  | i : Int → Val
  | b : Bool → Val
  | l : List Int → Val
  | pipes : List Nat → Val
  | undefined : Val
deriving DecidableEq, Repr

/-- JS truthiness of a value, as used by `Array.prototype.filter`. -/
def isTruthy : Val → Bool
  | .i n => n ≠ 0
  | .b v => v
  | .l _ => true
  | .pipes _ => true
  | .undefined => false

/-- View a value as a list of items (a non-list behaves as empty). -/
def asList : Val → List Int
  | .l xs => xs
  | _ => []

/-- Observable events: a user callback being invoked, or a user
callback reading a pipe's value (recording what it saw). -/
inductive LogEntry where
  | call : Nat → LogEntry
  | read : Nat → Val → LogEntry
deriving DecidableEq, Repr

/-- A listener slot content: a user callback (identified by the
number of its function reference), a user callback that reads the
value of some node when invoked, or one of the library's internal
`_ => this.notify()` / filter-parent-handler closures.  The `ref`
argument of the internal forms models closure reference identity:
each subscription of an internal handler allocates a fresh one. -/
inductive LAction where
  | call : Nat → LAction
  | read : Nat → Nat → LAction
  | notifyOf : Nat → Nat → LAction
  | filterParentOf : Nat → Nat → LAction
deriving DecidableEq, Repr

/-- The structured error thrown by `Pipe.subscribe` on a duplicate
listener reference. -/
structure DupError where
  message : String
  listener : LAction
deriving DecidableEq, Repr

/-- The per-class state of a pipe object. -/
inductive NodeKind where
  | state : Val → Val → NodeKind
  | projection : Nat → (Val → Val) → Bool → Val → NodeKind
  | combiner : List Nat → NodeKind
  | filter : Nat → (Int → Nat) → Bool → List Int → List (Int × Nat × Nat) → NodeKind
  | monitor : Nat → List (Val → Nat) → List (Nat × Nat) → NodeKind

/-- A pipe object: its class-specific state, the `_listenerIndex`
counter and the sparse `_listeners` array (position = token). -/
structure Node where
  kind : NodeKind
  listenerIndex : Nat
  listeners : List (Option LAction)

/-- The whole object graph plus the trace of user-callback events,
the supply of fresh closure references, and a thrown-TypeError flag. -/
structure World where
  nodes : List Node
  log : List LogEntry
  nextRef : Nat
  err : Bool

/-- JS `arr[i] = v` on a sparse array: assigns in place, padding with
holes when `i` is beyond the current length. -/
def jsSet (l : List (Option α)) (i : Nat) (v : α) : List (Option α) :=
  if i < l.length then l.set i (some v)
  else l ++ List.replicate (i - l.length) none ++ [some v]

/-- JS `delete arr[i]`: leaves a hole; indices beyond the length are
untouched (`List.set` is already a no-op there). -/
def jsDelete (l : List (Option α)) (i : Nat) : List (Option α) :=
  l.set i none

/-- Number of occupied slots of a sparse listener array. -/
def liveCount (l : List (Option α)) : Nat :=
  (l.filter (fun x => x.isSome)).length

def setNode (w : World) (nid : Nat) (node : Node) : World :=
  { w with nodes := w.nodes.set nid node }

def nodeListeners (w : World) (nid : Nat) : List (Option LAction) :=
  match w.nodes[nid]? with
  | some n => n.listeners
  | none => []

/-- `Pipe.subscribe`: throws the structured duplicate error when the
identical listener reference is already registered, otherwise stores
the listener at the next token. -/
def pipeSubscribe (w : World) (nid : Nat) (listener : LAction) :
    Except DupError (World × Nat) :=
  match w.nodes[nid]? with
  | none => .error ⟨"no such pipe", listener⟩
  | some node =>
    if (some listener) ∈ node.listeners then
      .error ⟨"The {listener} has already subscribed. Was this intentional?", listener⟩
    else
      let token := node.listenerIndex
      .ok (setNode w nid { node with
            listenerIndex := token + 1,
            listeners := jsSet node.listeners token listener }, token)

/-- `Pipe.unsubscribe`: `delete this._listeners[listenerToken]`.
Total: an unknown or foreign token leaves the table unchanged. -/
def pipeUnsubscribe (w : World) (nid : Nat) (token : Nat) : World :=
  match w.nodes[nid]? with
  | none => w
  | some node => setNode w nid { node with listeners := jsDelete node.listeners token }

/-- Subscribing one of the library's internal closures: a fresh
closure reference is allocated, so the duplicate check never fires
(distinct JS closures are never `includes`-equal). -/
def subscribeFresh (w : World) (target : Nat) (mk : Nat → LAction) : World × Nat :=
  let ref := w.nextRef
  let w1 := { w with nextRef := ref + 1 }
  match pipeSubscribe w1 target (mk ref) with
  | .ok r => r
  | .error _ => ({ w1 with err := true }, 0)

/-- Scenario helper: a user `subscribe` call at the top level, with a
thrown duplicate error surfacing as the error flag. -/
def subUser (w : World) (nid : Nat) (a : LAction) : World × Nat :=
  match pipeSubscribe w nid a with
  | .ok r => r
  | .error _ => ({ w with err := true }, 0)

/-- Cache clearing performed by the overridden `notify` of
`PipeProjection` and `PipeArrayFilter` before the base notify; the
other classes do not override `notify`. -/
def clearCache (w : World) (nid : Nat) : World :=
  match w.nodes[nid]? with
  | some node =>
    match node.kind with
    | .projection p f _ c => setNode w nid { node with kind := .projection p f false c }
    | .filter p pr _ c s => setNode w nid { node with kind := .filter p pr false c s }
    | _ => w
  | none => w

def writeProjCache (w : World) (nid : Nat) (v : Val) : World :=
  match w.nodes[nid]? with
  | some node =>
    match node.kind with
    | .projection p f _ _ => setNode w nid { node with kind := .projection p f true v }
    | _ => { w with err := true }
  | none => { w with err := true }

def writeFilterCache (w : World) (nid : Nat) (v : List Int) : World :=
  match w.nodes[nid]? with
  | some node =>
    match node.kind with
    | .filter p pr _ _ s => setNode w nid { node with kind := .filter p pr true v s }
    | _ => { w with err := true }
  | none => { w with err := true }

def writeFilterSubs (w : World) (nid : Nat) (subs : List (Int × Nat × Nat)) : World :=
  match w.nodes[nid]? with
  | some node =>
    match node.kind with
    | .filter p pr c ca _ => setNode w nid { node with kind := .filter p pr c ca subs }
    | _ => { w with err := true }
  | none => { w with err := true }

def writeMonitorSubs (w : World) (nid : Nat) (subs : List (Nat × Nat)) : World :=
  match w.nodes[nid]? with
  | some node =>
    match node.kind with
    | .monitor p sels _ => setNode w nid { node with kind := .monitor p sels subs }
    | _ => { w with err := true }
  | none => { w with err := true }

/-- Subscribing `_ => this.notify()` of pipe `nid` to the predicate
pipe of each listed item, collecting `{ item, unsubscribe }` records
as (item, predicate-pipe id, token) — the child-subscription setup of
the `PipeArrayFilter` constructor and of its parent handler. -/
def subChildren (w : World) (nid : Nat) (pred : Int → Nat) :
    List Int → World × List (Int × Nat × Nat)
  | [] => (w, [])
  | x :: xs =>
    let pipeId := pred x
    let r := subscribeFresh w pipeId (fun ref => .notifyOf nid ref)
    let rest := subChildren r.1 nid pred xs
    (rest.1, (x, pipeId, r.2) :: rest.2)

mutual

/-- Invocation of one listener slot's closure. -/
def invoke : Nat → World → LAction → World
  | 0, w, _ => { w with err := true }
  | _ + 1, w, .call uid =>
    if w.err then w else { w with log := w.log ++ [.call uid] }
  | fuel + 1, w, .read uid nid =>
    if w.err then w else
      let r := getValue fuel w nid
      { r.1 with log := r.1.log ++ [.read uid r.2] }
  | fuel + 1, w, .notifyOf nid _ =>
    if w.err then w else doNotify fuel w nid
  | fuel + 1, w, .filterParentOf nid _ =>
    if w.err then w else filterOnParent fuel w nid
termination_by structural fuel => fuel

/-- `this.notify()`: `PipeProjection` and `PipeArrayFilter` clear
their cache first, then the base `notify` iterates the listener
array. -/
def doNotify : Nat → World → Nat → World
  | 0, w, _ => { w with err := true }
  | fuel + 1, w, nid =>
    if w.err then w else runListeners fuel (clearCache w nid) nid 0
termination_by structural fuel => fuel

/-- The base-class `notify` loop: `for (const listener of
this._listeners) listener(this)`.  Iteration is live (by index over
the current array) and a hole yields `undefined`, whose invocation is
a TypeError aborting the whole propagation. -/
def runListeners : Nat → World → Nat → Nat → World
  | 0, w, _, _ => { w with err := true }
  | fuel + 1, w, nid, i =>
    if w.err then w else
    match w.nodes[nid]? with
    | none => { w with err := true }
    | some node =>
      if i < node.listeners.length then
        match node.listeners[i]? with
        | some (some a) => runListeners fuel (invoke fuel w a) nid (i + 1)
        | _ => { w with err := true }
      else w
termination_by structural fuel => fuel

/-- The `value` getters.  `State` returns its stored value;
`PipeProjection` and `PipeArrayFilter` recompute and store their
cache when invalid; `PipeCombiner.value` is the list of its pipes;
`PipeMonitor.value` is its parent's value. -/
def getValue : Nat → World → Nat → World × Val
  | 0, w, _ => ({ w with err := true }, .undefined)
  | fuel + 1, w, nid =>
    match w.nodes[nid]? with
    | none => ({ w with err := true }, .undefined)
    | some node =>
      match node.kind with
      | .state _ v => (w, v)
      | .projection p f cached cache =>
        if cached then (w, cache)
        else
          let r := getValue fuel w p
          let cv := f r.2
          (writeProjCache r.1 nid cv, cv)
      | .combiner ps => (w, .pipes ps)
      | .monitor p _ _ => getValue fuel w p
      | .filter p pred cached cache _ =>
        if cached then (w, .l cache)
        else
          let r := getValue fuel w p
          let rf := filterVals fuel r.1 pred (asList r.2)
          (writeFilterCache rf.1 nid rf.2, .l rf.2)
termination_by structural fuel => fuel

/-- `parent.value.filter(x => this._predicate(x).value)`: keep the
items whose predicate pipe's current value is truthy. -/
def filterVals : Nat → World → (Int → Nat) → List Int → World × List Int
  | 0, w, _, _ => ({ w with err := true }, [])
  | _ + 1, w, _, [] => (w, [])
  | fuel + 1, w, pred, x :: xs =>
    let r := getValue fuel w (pred x)
    let rest := filterVals fuel r.1 pred xs
    if isTruthy r.2 then (rest.1, x :: rest.2) else (rest.1, rest.2)
termination_by structural fuel => fuel

/-- The parent-subscription handler of `PipeArrayFilter`: drop the
child subscriptions of items no longer in the parent list
(unsubscribing each), subscribe to the predicate pipes of newly added
items, then `this.notify()`. -/
def filterOnParent : Nat → World → Nat → World
  | 0, w, _ => { w with err := true }
  | fuel + 1, w, nid =>
    if w.err then w else
    match w.nodes[nid]? with
    | none => { w with err := true }
    | some node =>
      match node.kind with
      | .filter p pred _ _ subs =>
        let rp := getValue fuel w p
        let pxs := asList rp.2
        let removed := subs.filter (fun s => !(pxs.any (fun it => it = s.1)))
        let w1 := removed.foldl (fun wa s => pipeUnsubscribe wa s.2.1 s.2.2) rp.1
        let kept := subs.filter (fun s => pxs.any (fun it => it = s.1))
        let w2 := writeFilterSubs w1 nid kept
        let rp2 := getValue fuel w2 p
        let added := (asList rp2.2).filter (fun it => !(kept.any (fun s => s.1 = it)))
        let ra := subChildren rp2.1 nid pred added
        let w3 := writeFilterSubs ra.1 nid (kept ++ ra.2)
        doNotify fuel w3 nid
      | _ => { w with err := true }
termination_by structural fuel => fuel

end

/-- The `State<T>` value setter: on a strict-inequality change store
the old value, store the new value, then notify; otherwise no-op. -/
def stateSet (fuel : Nat) (w : World) (nid : Nat) (v : Val) : World :=
  match w.nodes[nid]? with
  | none => { w with err := true }
  | some node =>
    match node.kind with
    | .state _ cur =>
      if cur = v then w
      else doNotify fuel (setNode w nid { node with kind := .state cur v }) nid
    | _ => { w with err := true }

/-- `State` constructor: `_oldValue` and `_value` are both the
initial value; the new node's id is returned. -/
def mkState (w : World) (v : Val) : World × Nat :=
  let nid := w.nodes.length
  ({ w with nodes := w.nodes ++ [⟨.state v v, 0, []⟩] }, nid)

/-- `PipeProjection` constructor: record parent and function, then
subscribe `_ => this.notify()` to the parent (once, at construction,
shared by all future listeners). -/
def mkProjection (w : World) (parent : Nat) (f : Val → Val) : World × Nat :=
  let nid := w.nodes.length
  let w1 := { w with nodes := w.nodes ++ [⟨.projection parent f false .undefined, 0, []⟩] }
  ((subscribeFresh w1 parent (fun ref => .notifyOf nid ref)).1, nid)

/-- `PipeCombiner` constructor: subscribe `_ => this.notify()` to
every constituent pipe. -/
def mkCombiner (w : World) (ps : List Nat) : World × Nat :=
  let nid := w.nodes.length
  let w1 := { w with nodes := w.nodes ++ [⟨.combiner ps, 0, []⟩] }
  (ps.foldl (fun wa p => (subscribeFresh wa p (fun ref => .notifyOf nid ref)).1) w1, nid)

/-- `PipeArrayFilter` constructor: subscribe the parent handler to
the parent, then subscribe to the predicate pipe of every current
parent item. -/
def mkFilter (fuel : Nat) (w : World) (parent : Nat) (pred : Int → Nat) : World × Nat :=
  let nid := w.nodes.length
  let w1 := { w with nodes := w.nodes ++ [⟨.filter parent pred false [] [], 0, []⟩] }
  let w2 := (subscribeFresh w1 parent (fun ref => .filterParentOf nid ref)).1
  let rp := getValue fuel w2 parent
  let rc := subChildren rp.1 nid pred (asList rp.2)
  (writeFilterSubs rc.1 nid rc.2, nid)

/-- Child-subscription setup of the `PipeMonitor` constructor: each
selector is applied to the parent's current value and the resulting
pipe is subscribed with `_ => this.notify()`. -/
def monitorChildren (fuel : Nat) (w : World) (nid : Nat) (parent : Nat) :
    List (Val → Nat) → World × List (Nat × Nat)
  | [] => (w, [])
  | sel :: rest =>
    let rv := getValue fuel w parent
    let pipeId := sel rv.2
    let rs := subscribeFresh rv.1 pipeId (fun ref => .notifyOf nid ref)
    let rr := monitorChildren fuel rs.1 nid parent rest
    (rr.1, (pipeId, rs.2) :: rr.2)

/-- `PipeMonitor` constructor: subscribe a plain `_ => this.notify()`
to the parent, then subscribe to every selector-chosen pipe. -/
def mkMonitor (fuel : Nat) (w : World) (parent : Nat) (sels : List (Val → Nat)) :
    World × Nat :=
  let nid := w.nodes.length
  let w1 := { w with nodes := w.nodes ++ [⟨.monitor parent sels [], 0, []⟩] }
  let w2 := (subscribeFresh w1 parent (fun ref => .notifyOf nid ref)).1
  let r := monitorChildren fuel w2 nid parent sels
  (writeMonitorSubs r.1 nid r.2, nid)

/-- The `oldValue` accessor of `State`. -/
def stateOldValue (w : World) (nid : Nat) : Val :=
  match w.nodes[nid]? with
  | some node =>
    match node.kind with
    | .state old _ => old
    | _ => .undefined
  | none => .undefined

/-- The stored `_value` of a `State` node. -/
def stateValue (w : World) (nid : Nat) : Val :=
  match w.nodes[nid]? with
  | some node =>
    match node.kind with
    | .state _ v => v
    | _ => .undefined
  | none => .undefined

/-- The `_unsubscribeChildren` bookkeeping of a `PipeMonitor` node,
as (watched pipe id, token) pairs. -/
def monitorSubs (w : World) (nid : Nat) : List (Nat × Nat) :=
  match w.nodes[nid]? with
  | some node =>
    match node.kind with
    | .monitor _ _ subs => subs
    | _ => []
  | none => []

/-- The `_unsubscribeChildren` bookkeeping of a `PipeArrayFilter`
node, as (item, predicate pipe id, token) triples. -/
def filterSubs (w : World) (nid : Nat) : List (Int × Nat × Nat) :=
  match w.nodes[nid]? with
  | some node =>
    match node.kind with
    | .filter _ _ _ _ subs => subs
    | _ => []
  | none => []

/-- The empty world. -/
def emptyWorld : World := ⟨[], [], 0, false⟩

/-- Ample fuel for every finite scenario below. -/
def FUEL : Nat := 64

/-!
Model of the earlier iteration's `MappedPipe` (class `MappedPipe` of
the `PipeBase` iteration): the derived pipe that creates ONE parent
subscription PER listener subscription, recording it in `_tokens`
keyed by its own token, and tears exactly it down on unsubscribe.
The parent here is a fresh `PipeBase` whose only subscribers are the
mapped pipe's internal closures (their slot content is irrelevant; we
store the parent token itself).
-/

/-- A `MappedPipe` together with its parent's listener bookkeeping:
the parent's `_index` and sparse `_listeners`, the mapped pipe's own
`_index` and sparse `_listeners` (user listeners by reference id),
and the `_tokens` own-token → parent-token map (a JS object indexed
by numbers, modelled sparsely). -/
structure MappedModel where
  parentIndex : Nat
  parentListeners : List (Option Nat)
  selfIndex : Nat
  selfListeners : List (Option Nat)
  tokens : List (Option Nat)

/-- `MappedPipe.subscribe`: take an own token from the base class,
subscribe a fresh `_ => this.notify()` closure to the parent, and
record `_tokens[token] = parentToken`. -/
def MappedModel.subscribe (m : MappedModel) (uid : Nat) : MappedModel × Nat :=
  let token := m.selfIndex
  let selfL := jsSet m.selfListeners token uid
  let ptok := m.parentIndex
  let parL := jsSet m.parentListeners ptok ptok
  ({ parentIndex := ptok + 1, parentListeners := parL,
     selfIndex := token + 1, selfListeners := selfL,
     tokens := jsSet m.tokens token ptok }, token)

/-- `MappedPipe.unsubscribe`: look up `_tokens[token]`, unsubscribe
that token from the parent (a lookup miss hands `undefined` to the
parent's `delete`, a no-op), then remove the own listener. -/
def MappedModel.unsubscribe (m : MappedModel) (token : Nat) : MappedModel :=
  match m.tokens[token]? with
  | some (some ptok) =>
    { m with parentListeners := jsDelete m.parentListeners ptok,
             selfListeners := jsDelete m.selfListeners token }
  | _ => { m with selfListeners := jsDelete m.selfListeners token }

/-- A user-driven subscribe/unsubscribe call on a `MappedPipe`. -/
inductive MOp where
  | sub : Nat → MOp
  | unsub : Nat → MOp

/-- Run a sequence of subscribe/unsubscribe calls. -/
def runMapped : MappedModel → List MOp → MappedModel
  | m, [] => m
  | m, .sub uid :: ops => runMapped (m.subscribe uid).1 ops
  | m, .unsub t :: ops => runMapped (m.unsubscribe t) ops

/-- A freshly constructed `MappedPipe` over a fresh parent. -/
def mkMappedPipe : MappedModel := ⟨0, [], 0, [], []⟩

/-- The bookkeeping invariant of `MappedPipe`: counters match table
lengths, `_tokens` pairs own token `t` with parent token `t` (the
mapped pipe being the parent's only subscriber, the counters advance
in lockstep), and slot `t` is live downstream exactly when its paired
parent slot is live upstream. -/
def MappedInv (m : MappedModel) : Prop :=
  m.selfIndex = m.selfListeners.length ∧
  m.parentIndex = m.parentListeners.length ∧
  m.tokens = (List.range m.selfListeners.length).map (fun i => some i) ∧
  m.selfListeners.map Option.isSome = m.parentListeners.map Option.isSome

/-!
Concrete scenario worlds used by the claims.
-/

/-- Scenario (C1): a `PipeProjection` over a `State`, with two user
listeners subscribed to the projection. -/
def c1World : World :=
  let r1 := mkState emptyWorld (Val.i 0)
  let r2 := mkProjection r1.1 r1.2 (fun v => v)
  let w := (subUser r2.1 r2.2 (.call 1)).1
  (subUser w r2.2 (.call 2)).1

/-- Scenario (C2): the selector maps parent value `0` to pipe `X`
(node 0) and anything else to pipe `Y` (node 1). -/
def c2sel : Val → Nat := fun v => if v = Val.i 0 then 0 else 1

/-- Scenario (C2): states `X = 10` (node 0), `Y = 20` (node 1),
parent `p = 0` (node 2), a `PipeMonitor` over `p` with selector
`c2sel` (node 3), and user listener `7` on the monitor. -/
def c2World : World :=
  let rX := mkState emptyWorld (Val.i 10)
  let rY := mkState rX.1 (Val.i 20)
  let rp := mkState rY.1 (Val.i 0)
  let rM := mkMonitor FUEL rp.1 rp.2 [c2sel]
  (subUser rM.1 rM.2 (.call 7)).1

/-- Scenario (C2): the world after `p.value = 1`, which should (per
the claim) re-point the monitor's watched set from `X` to `Y`. -/
def c2After : World := stateSet FUEL c2World 2 (Val.i 1)

/-- Scenario (C3): a `State` with user listeners `1` (token 0) and
`2` (token 1), after `unsubscribe(0)`. -/
def c3World : World :=
  let r1 := mkState emptyWorld (Val.i 0)
  let w := (subUser r1.1 r1.2 (.call 1)).1
  let w2 := (subUser w r1.2 (.call 2)).1
  pipeUnsubscribe w2 r1.2 0

/-- Scenario (C3): the world after the subsequent `value = 5`. -/
def c3After : World := stateSet FUEL c3World 0 (Val.i 5)

/-- Scenario (C4): a `State` holding `v0` (node 0), a projection by
`f` over it (node 1), a listener (id 9) that reads the projection's
value when invoked, and the projection's cache primed by one read. -/
def c4World (v0 : Val) (f : Val → Val) : World :=
  let r1 := mkState emptyWorld v0
  let r2 := mkProjection r1.1 r1.2 f
  let w := (subUser r2.1 r2.2 (.read 9 r2.2)).1
  (getValue FUEL w r2.2).1

/-- Scenario (C5): per-item predicate pipes — item 1 ↦ node 0 (`pa`),
item 2 ↦ node 1 (`pb`), item 3 ↦ node 2 (`pc`). -/
def c5pred : Int → Nat := fun it => if it = 1 then 0 else if it = 2 then 1 else 2

/-- Scenario (C5): predicate states `pa = true`, `pb = false`,
`pc = true` (nodes 0–2), list state `L = [1, 2, 3]` (node 3), a
`PipeArrayFilter` over `L` with `c5pred` (node 4), and user listener
`7` on the filter. -/
def c5World : World :=
  let ra := mkState emptyWorld (Val.b true)
  let rb := mkState ra.1 (Val.b false)
  let rc := mkState rb.1 (Val.b true)
  let rL := mkState rc.1 (Val.l [1, 2, 3])
  let rF := mkFilter FUEL rL.1 rL.2 c5pred
  (subUser rF.1 rF.2 (.call 7)).1

/-- Scenario (C5): after priming the filter's cache, mutate the cell
backing `p(2)` to `true` without touching `L`. -/
def c5World2 : World := stateSet FUEL ((getValue FUEL c5World 4).1) 1 (Val.b true)

/-- Scenario (C5): set `p(2)` back to `false`, then remove item 2
from the parent list (`L.value = [1, 3]`). -/
def c5World3 : World :=
  let w := stateSet FUEL ((getValue FUEL c5World2 4).1) 1 (Val.b false)
  stateSet FUEL w 3 (Val.l [1, 3])

/-- Scenario (C5): change the now-detached predicate `p(2)`. -/
def c5World4 : World := stateSet FUEL c5World3 1 (Val.b true)

/-- Scenario (C6): a mutable cell holding `cur` whose listener table
holds exactly the user callbacks `us`, one per token in subscription
order. -/
def c6World (cur : Val) (us : List Nat) : World :=
  ⟨[⟨.state cur cur, us.length, us.map (fun u => some (.call u))⟩], [], 0, false⟩

/-- Scenario (C7/C10): a single freshly constructed `State`. -/
def stateWorld (v : Val) : World := (mkState emptyWorld v).1

/-- A sequence of `value =` assignments on one `State` node. -/
def stateSets (fuel : Nat) (nid : Nat) : World → List Val → World
  | w, [] => w
  | w, v :: vs => stateSets fuel nid (stateSet fuel w nid v) vs

/-- Scenario (C8): the diamond — state `A = v0` (node 0), projections
`P1 = A.project f1` (node 1) and `P2 = A.project f2` (node 2), the
combiner `D` over `[P1, P2]` (node 3), and user listener `7` on `D`. -/
def c8World (v0 : Val) (f1 f2 : Val → Val) : World :=
  let r1 := mkState emptyWorld v0
  let r2 := mkProjection r1.1 r1.2 f1
  let r3 := mkProjection r2.1 r1.2 f2
  let r4 := mkCombiner r3.1 [r2.2, r3.2]
  (subUser r4.1 r4.2 (.call 7)).1

/-- Scenario (C9): a fresh `State` with user listener `3` subscribed
once. -/
def c9World : World := (subUser (mkState emptyWorld (Val.i 0)).1 0 (.call 3)).1

/-!
Helper lemmas.
-/

/-- Unfolding `stateSet` when the new value differs from the current
one (the notifying branch of the `State` setter). -/
theorem stateSet_not_eq (fuel : Nat) (w : World) (nid : Nat) (old cur v : Val)
    (li : Nat) (ls : List (Option LAction))
    (hn : w.nodes[nid]? = some ⟨.state old cur, li, ls⟩) (h : cur ≠ v) :
    stateSet fuel w nid v = doNotify fuel (setNode w nid ⟨.state cur v, li, ls⟩) nid := by
  unfold stateSet
  rw [hn]
  exact if_neg h

/-- Unfolding `stateSet` when the new value equals the current one
(the no-op branch of the `State` setter). -/
theorem stateSet_self (fuel : Nat) (w : World) (nid : Nat) (old cur v : Val)
    (li : Nat) (ls : List (Option LAction))
    (hn : w.nodes[nid]? = some ⟨.state old cur, li, ls⟩) (h : cur = v) :
    stateSet fuel w nid v = w := by
  unfold stateSet
  rw [hn]
  exact if_pos h

/-- An in-range `List.set` leaves the written value present. -/
theorem mem_set_self (l : List α) (i : Nat) (a : α) (h : i < l.length) :
    a ∈ l.set i a := by
  induction l generalizing i with
  | nil => simp at h
  | cons x xs ih =>
    cases i with
    | zero => simp
    | succ j =>
      simp only [List.set, List.mem_cons]
      exact Or.inr (ih j (by simpa using h))

/-- A sparse-array write always leaves the written value present. -/
theorem jsSet_mem (l : List (Option α)) (i : Nat) (v : α) : some v ∈ jsSet l i v := by
  unfold jsSet
  split
  · rename_i h
    exact mem_set_self _ _ _ h
  · simp

/-- An in-range `List.set` is observable at its own index. -/
theorem getElem?_set_self' (l : List α) (i : Nat) (x : α) (h : i < l.length) :
    (l.set i x)[i]? = some x := by
  rw [List.getElem?_eq_getElem (by simpa using h)]
  simp [List.getElem_set_self]

/-- A sparse-array write at the current length is an append. -/
theorem jsSet_append (l : List (Option α)) (v : α) : jsSet l l.length v = l ++ [some v] := by
  simp [jsSet]

/-- Two sparse arrays with the same occupancy pattern have the same
number of live slots. -/
theorem liveCount_eq_of_map (l1 : List (Option α)) (l2 : List (Option β))
    (h : l1.map Option.isSome = l2.map Option.isSome) :
    liveCount l1 = liveCount l2 := by
  induction l1 generalizing l2 with
  | nil =>
    cases l2 with
    | nil => rfl
    | cons b bs => simp at h
  | cons a as ih =>
    cases l2 with
    | nil => simp at h
    | cons b bs =>
      simp only [List.map_cons, List.cons.injEq] at h
      obtain ⟨h1, h2⟩ := h
      simp only [liveCount, List.filter_cons, h1]
      have hrec : liveCount as = liveCount bs := ih bs h2
      simp only [liveCount] at hrec
      cases hb : b.isSome <;> simp [hb, hrec]

/-- The base `notify` loop over a hole-free table of user callbacks
appends one `call` event per remaining slot, in token order. -/
theorem runListeners_calls (fuel : Nat) :
    ∀ (w : World) (nid i li : Nat) (kind : NodeKind) (us : List Nat),
    w.nodes[nid]? = some ⟨kind, li, us.map (fun u => some (.call u))⟩ →
    w.err = false →
    i ≤ us.length →
    us.length + 1 ≤ i + fuel →
    runListeners fuel w nid i = { w with log := w.log ++ ((us.drop i).map LogEntry.call) } := by
  induction fuel with
  | zero =>
    intro w nid i li kind us hn he hi hf
    omega
  | succ fuel ih =>
    intro w nid i li kind us hn he hi hf
    rcases Nat.lt_or_ge i us.length with hlt | hge
    · have hslot : (us.map (fun u => some (LAction.call u)))[i]? = some (some (.call us[i])) := by
        simp [List.getElem?_map, List.getElem?_eq_getElem hlt]
      rcases fuel with _ | g
      · omega
      · have hstep : runListeners (g + 1 + 1) w nid i =
            runListeners (g + 1) (invoke (g + 1) w (.call us[i])) nid (i + 1) := by
          simp only [runListeners, he, Bool.false_eq_true, if_false, hn, List.length_map, hlt,
            if_pos, hslot]
        have hinv : invoke (g + 1) w (.call us[i]) = { w with log := w.log ++ [.call us[i]] } := by
          simp [invoke, he]
        rw [hstep, hinv, ih _ _ _ _ _ _ (by simpa using hn) (by simp [he]) (by omega) (by omega)]
        simp only [List.drop_eq_getElem_cons hlt, List.map_cons]
        simp [List.append_assoc]
    · have hii : i = us.length := Nat.le_antisymm hi hge
      subst hii
      have hstop : runListeners (fuel + 1) w nid us.length = w := by
        simp only [runListeners, he, Bool.false_eq_true, if_false, hn, List.length_map]
        simp
      rw [hstop]
      simp

/-- `MappedPipe.subscribe` preserves the bookkeeping invariant. -/
theorem mappedInv_subscribe (m : MappedModel) (uid : Nat) (h : MappedInv m) :
    MappedInv (m.subscribe uid).1 := by
  obtain ⟨h1, h2, h3, h4⟩ := h
  have hlen : m.selfListeners.length = m.parentListeners.length := by
    have := congrArg List.length h4
    simpa using this
  have htok : m.tokens.length = m.selfListeners.length := by
    rw [h3]; simp
  unfold MappedModel.subscribe MappedInv
  simp only [h1, h2]
  refine ⟨?_, ?_, ?_, ?_⟩
  · rw [jsSet_append]; simp
  · rw [jsSet_append]; simp
  · have e1 : jsSet m.tokens m.selfListeners.length m.parentListeners.length
        = m.tokens ++ [some m.parentListeners.length] := by
      rw [← htok]; exact jsSet_append _ _
    rw [e1, h3, jsSet_append, ← hlen]
    rw [List.length_append]
    simp [List.range_succ]
  · rw [jsSet_append, jsSet_append]
    simp [h4]

/-- `MappedPipe.unsubscribe` preserves the bookkeeping invariant. -/
theorem mappedInv_unsubscribe (m : MappedModel) (t : Nat) (h : MappedInv m) :
    MappedInv (m.unsubscribe t) := by
  obtain ⟨h1, h2, h3, h4⟩ := h
  unfold MappedModel.unsubscribe
  rcases Nat.lt_or_ge t m.selfListeners.length with hlt | hge
  · have htok : m.tokens[t]? = some (some t) := by
      rw [h3, List.getElem?_map, List.getElem?_range hlt]
      rfl
    rw [htok]
    refine ⟨?_, ?_, ?_, ?_⟩
    · simpa [jsDelete] using h1
    · simpa [jsDelete] using h2
    · simpa [jsDelete] using h3
    · simp only [jsDelete]
      rw [List.map_set, List.map_set, h4]
  · have htok : m.tokens[t]? = none := by
      rw [h3]
      exact List.getElem?_eq_none (by simpa using hge)
    rw [htok]
    have hid : jsDelete m.selfListeners t = m.selfListeners :=
      List.set_eq_of_length_le hge
    exact ⟨by simpa [hid] using h1, h2, by simpa [hid] using h3, by simpa [hid] using h4⟩

/-- Any sequence of subscribe/unsubscribe calls preserves the
`MappedPipe` bookkeeping invariant. -/
theorem mappedInv_run (ops : List MOp) : ∀ m, MappedInv m → MappedInv (runMapped m ops) := by
  induction ops with
  | nil => intro m h; exact h
  | cons op rest ih =>
    intro m h
    cases op with
    | sub uid => exact ih _ (mappedInv_subscribe m uid h)
    | unsub t => exact ih _ (mappedInv_unsubscribe m t h)

/-!
The claims.
-/

/-- Claim C1, counterexample: `PipeProjection` (like every derived
pipe of the later iteration) subscribes to its parent once, in the
constructor.  With two listeners subscribed to the projection the
parent holds one — not two — upstream subscriptions, and
unsubscribing a listener (token 0) tears no upstream linkage down, so
downstream subscription count does not equal upstream linkage count
per listener. -/
theorem C1_projection_shares_upstream_subscription :
    liveCount (nodeListeners c1World 1) = 2 ∧
    liveCount (nodeListeners c1World 0) = 1 ∧
    liveCount (nodeListeners (pipeUnsubscribe c1World 1 0) 0) = 1 ∧
    liveCount (nodeListeners (pipeUnsubscribe c1World 1 0) 1) = 1 := by decide

/-- Claim C1, amended: for `MappedPipe` (the `PipeBase` iteration)
the claimed discipline does hold — every `subscribe` creates exactly
one parent subscription keyed by the new own token, `unsubscribe`
tears exactly that one down, and after any sequence of
subscribe/unsubscribe calls each own slot is live exactly when its
paired parent slot is, so downstream live-subscription count always
equals upstream linkage count. -/
theorem C1_mappedPipe_one_upstream_per_listener (ops : List MOp) :
    (runMapped mkMappedPipe ops).selfListeners.map Option.isSome
      = (runMapped mkMappedPipe ops).parentListeners.map Option.isSome ∧
    liveCount (runMapped mkMappedPipe ops).selfListeners
      = liveCount (runMapped mkMappedPipe ops).parentListeners := by
  have h := mappedInv_run ops mkMappedPipe ⟨rfl, rfl, rfl, rfl⟩
  exact ⟨h.2.2.2, liveCount_eq_of_map _ _ h.2.2.2⟩

/-- Claim C2, counterexample: the monitor watches `X` (selected at
construction when the parent's value was `0`).  After the parent is
set to `1` — when the selector now picks `Y` — the monitor's
selector-derived subscription bookkeeping is unchanged: it still
holds exactly the construction-time entry for `X`, `X`'s listener
table still carries the monitor's subscription, `Y`'s is empty, a
later change of `Y` does not fire the monitor's listener, and a later
change of the no-longer-selected `X` still does. -/
theorem C2_monitor_does_not_reselect :
    monitorSubs c2After 3 = [(0, 0)] ∧
    liveCount (nodeListeners c2After 0) = 1 ∧
    liveCount (nodeListeners c2After 1) = 0 ∧
    (stateSet FUEL c2After 1 (Val.i 99)).log = [.call 7] ∧
    (stateSet FUEL c2After 0 (Val.i 99)).log = [.call 7, .call 7] := by decide

/-- Claim C2, amended: on construction the monitor evaluates every
selector against the parent's current value and subscribes to each
resulting observable, and both the parent and those observables
firing trigger the monitor's notify; but on parent notification the
monitor only notifies its own listeners — it never unsubscribes,
re-evaluates or resubscribes its selector-derived subscriptions, so
the watched set stays the construction-time one. -/
theorem C2_monitor_watch_set_fixed_at_construction :
    monitorSubs c2World 3 = [(0, 0)] ∧
    c2World.log = [] ∧
    c2After.log = [.call 7] ∧
    c2After.err = false ∧
    monitorSubs c2After 3 = monitorSubs c2World 3 ∧
    nodeListeners c2After 0 = nodeListeners c2World 0 ∧
    nodeListeners c2After 1 = nodeListeners c2World 1 ∧
    (stateSet FUEL c2After 0 (Val.i 99)).log = [.call 7, .call 7] := by decide

/-- Claim C3, code bug, evaluated at the failing input: a `State`
with user listeners `1` (token 0) and `2` (token 1), after
`unsubscribe(0)` and a subsequent value change.  `unsubscribe` itself
is a harmless no-op for unknown (99) or already-removed (0) tokens,
and the removed listener is indeed never invoked — but the
later-iteration `notify` iterates the sparse array with `for...of`,
so it calls the `undefined` left in the deleted slot: the
propagation aborts with a TypeError (`err = true`) and the remaining
live listener `2` is never invoked (`log = []`), contradicting the
claim that every remaining listener is still invoked normally. -/
theorem C3_notify_after_unsubscribe_throws :
    c3After.err = true ∧
    c3After.log = [] ∧
    liveCount (nodeListeners c3World 0) = 1 ∧
    stateValue c3After 0 = .i 5 ∧
    nodeListeners (pipeUnsubscribe c3World 0 99) 0 = nodeListeners c3World 0 ∧
    nodeListeners (pipeUnsubscribe c3World 0 0) 0 = nodeListeners c3World 0 := by decide

/-- Claim C4: for a projection `P` over state `A` with function `f`,
after `A` changes to `v1` the listener that reads `P.value`
synchronously during `A`'s notification sees `f v1` (the cache was
cleared before the projection re-notified), and the very next read of
`P.value` after the set is `f v1` — never the stale `f v0` primed
into the cache beforehand. -/
theorem C4_projection_cache_coherency (v0 v1 : Val) (f : Val → Val) (h : v1 ≠ v0) :
    (stateSet FUEL (c4World v0 f) 0 v1).log = [.read 9 (f v1)] ∧
    (getValue FUEL (stateSet FUEL (c4World v0 f) 0 v1) 1).2 = f v1 ∧
    (stateSet FUEL (c4World v0 f) 0 v1).err = false := by
  have hv : (v0 = v1) = False := eq_false (fun he => h he.symm)
  refine ⟨?_, ?_, ?_⟩ <;>
  simp +decide [c4World, stateSet, mkState, mkProjection, subUser, subscribeFresh,
    pipeSubscribe, setNode, jsSet, emptyWorld, FUEL, doNotify, runListeners, invoke,
    clearCache, getValue, writeProjCache, hv]

/-- Claim C4, witness at `v0 = 10`, `v1 = 20`, `f` the identity. -/
theorem C4_projection_cache_coherency_witness :
    (stateSet FUEL (c4World (Val.i 10) (fun v => v)) 0 (Val.i 20)).log
      = [.read 9 (Val.i 20)] ∧
    (getValue FUEL (stateSet FUEL (c4World (Val.i 10) (fun v => v)) 0 (Val.i 20)) 1).2
      = Val.i 20 ∧
    (stateSet FUEL (c4World (Val.i 10) (fun v => v)) 0 (Val.i 20)).err = false :=
  C4_projection_cache_coherency (Val.i 10) (Val.i 20) (fun v => v) (by decide)

/-- Claim C5: with `L = [1, 2, 3]` and predicate cells
`p(1) = true`, `p(2) = false`, `p(3) = true`, the filter's value is
`[1, 3]`; setting `p(2) := true` (without touching `L`) fires the
filter's listener exactly once and its value becomes `[1, 2, 3]`;
after removing item 2 from `L` the filter's child-subscription
bookkeeping holds exactly the entries for items 1 and 3, item 2's
predicate cell has no live subscription left, the value is `[1, 3]`,
and a later change of the detached predicate `p(2)` does not fire the
filter's listeners. -/
theorem C5_filter_dynamic_membership :
    (getValue FUEL c5World 4).2 = .l [1, 3] ∧
    c5World.err = false ∧
    c5World2.log = [.call 7] ∧
    (getValue FUEL c5World2 4).2 = .l [1, 2, 3] ∧
    c5World2.err = false ∧
    filterSubs c5World3 4 = [(1, 0, 0), (3, 2, 0)] ∧
    liveCount (nodeListeners c5World3 1) = 0 ∧
    (getValue FUEL c5World3 4).2 = .l [1, 3] ∧
    c5World3.err = false ∧
    c5World4.log = c5World3.log := by decide

/-- Claim C6: setting a mutable cell to a value `v` different from
the current one invokes each subscribed user listener exactly once,
in token order, synchronously within the `set` (the log after `set`
returns is exactly one `call` per listener), having already stored
the old and new values; setting the current value again changes
nothing and invokes nobody. -/
theorem C6_set_notifies_each_listener_once (cur v : Val) (us : List Nat)
    (h : v ≠ cur) (hlen : us.length ≤ 62) :
    ((stateSet FUEL (c6World cur us) 0 v).log = us.map LogEntry.call ∧
     stateValue (stateSet FUEL (c6World cur us) 0 v) 0 = v ∧
     stateOldValue (stateSet FUEL (c6World cur us) 0 v) 0 = cur ∧
     (stateSet FUEL (c6World cur us) 0 v).err = false) ∧
    stateSet FUEL (c6World cur us) 0 cur = c6World cur us := by
  constructor
  · have h1 : stateSet FUEL (c6World cur us) 0 v =
        doNotify FUEL (⟨[⟨.state cur v, us.length, us.map (fun u => some (.call u))⟩],
          [], 0, false⟩ : World) 0 := by
      have h0 := stateSet_not_eq FUEL (c6World cur us) 0 cur cur v us.length
        (us.map (fun u => some (.call u))) rfl (fun he => h he.symm)
      rw [h0]
      simp [setNode, c6World]
    have h2 : doNotify FUEL (⟨[⟨.state cur v, us.length, us.map (fun u => some (.call u))⟩],
          [], 0, false⟩ : World) 0 =
        runListeners 63 (⟨[⟨.state cur v, us.length, us.map (fun u => some (.call u))⟩],
          [], 0, false⟩ : World) 0 0 := by
      simp [FUEL, doNotify, clearCache]
    have h3 := runListeners_calls 63
      (⟨[⟨.state cur v, us.length, us.map (fun u => some (.call u))⟩], [], 0, false⟩ : World)
      0 0 us.length (.state cur v) us rfl rfl (Nat.zero_le _) (by omega)
    rw [h1, h2, h3]
    refine ⟨by simp, rfl, rfl, rfl⟩
  · exact stateSet_self FUEL (c6World cur us) 0 cur cur cur us.length
      (us.map (fun u => some (.call u))) rfl rfl

/-- Claim C6, witness: cell at `0` with listeners `4` and `5`, set to
`1` then set again to its own value. -/
theorem C6_set_notifies_each_listener_once_witness :
    (((stateSet FUEL (c6World (Val.i 0) [4, 5]) 0 (Val.i 1)).log = [4, 5].map LogEntry.call ∧
     stateValue (stateSet FUEL (c6World (Val.i 0) [4, 5]) 0 (Val.i 1)) 0 = Val.i 1 ∧
     stateOldValue (stateSet FUEL (c6World (Val.i 0) [4, 5]) 0 (Val.i 1)) 0 = Val.i 0 ∧
     (stateSet FUEL (c6World (Val.i 0) [4, 5]) 0 (Val.i 1)).err = false) ∧
    stateSet FUEL (c6World (Val.i 0) [4, 5]) 0 (Val.i 0) = c6World (Val.i 0) [4, 5]) :=
  C6_set_notifies_each_listener_once (Val.i 0) (Val.i 1) [4, 5] (by decide) (by decide)

/-- Claim C7: after `set v1` then `set v2` with `v2 ≠ v1`, `oldValue`
is `v1` and `value` is `v2` (whether or not `v1` equalled the initial
value); and setting the same value twice in a row leaves `oldValue`
unchanged the second time. -/
theorem C7_old_value_tracking (v0 v1 v2 : Val) (h : v2 ≠ v1) :
    stateOldValue (stateSet FUEL (stateSet FUEL (stateWorld v0) 0 v1) 0 v2) 0 = v1 ∧
    stateValue (stateSet FUEL (stateSet FUEL (stateWorld v0) 0 v1) 0 v2) 0 = v2 ∧
    stateOldValue (stateSet FUEL (stateSet FUEL (stateWorld v0) 0 v1) 0 v1) 0
      = stateOldValue (stateSet FUEL (stateWorld v0) 0 v1) 0 := by
  have hv2 : (v1 = v2) = False := eq_false (fun he => h he.symm)
  by_cases hv : v0 = v1
  · subst hv
    refine ⟨?_, ?_, ?_⟩ <;>
      simp +decide [stateWorld, stateSet, mkState, emptyWorld, FUEL, doNotify, runListeners,
        clearCache, setNode, stateOldValue, stateValue, hv2]
  · have hv' : (v0 = v1) = False := eq_false hv
    refine ⟨?_, ?_, ?_⟩ <;>
      simp +decide [stateWorld, stateSet, mkState, emptyWorld, FUEL, doNotify, runListeners,
        clearCache, setNode, stateOldValue, stateValue, hv2, hv']

/-- Claim C7, witness at initial `0`, then `set 1`, then `set 2`. -/
theorem C7_old_value_tracking_witness :
    stateOldValue (stateSet FUEL (stateSet FUEL (stateWorld (Val.i 0)) 0 (Val.i 1)) 0
      (Val.i 2)) 0 = Val.i 1 ∧
    stateValue (stateSet FUEL (stateSet FUEL (stateWorld (Val.i 0)) 0 (Val.i 1)) 0
      (Val.i 2)) 0 = Val.i 2 ∧
    stateOldValue (stateSet FUEL (stateSet FUEL (stateWorld (Val.i 0)) 0 (Val.i 1)) 0
      (Val.i 1)) 0
      = stateOldValue (stateSet FUEL (stateWorld (Val.i 0)) 0 (Val.i 1)) 0 :=
  C7_old_value_tracking (Val.i 0) (Val.i 1) (Val.i 2) (by decide)

/-- Claim C8: in the diamond `A` → `P1`, `P2` → `D`, one `set` of a
changed value on `A` invokes the listener on `D` exactly twice — once
via each intermediate projection — with no batching or
deduplication. -/
theorem C8_diamond_double_notification (v0 v1 : Val) (f1 f2 : Val → Val) (h : v1 ≠ v0) :
    (stateSet FUEL (c8World v0 f1 f2) 0 v1).log = [.call 7, .call 7] ∧
    (stateSet FUEL (c8World v0 f1 f2) 0 v1).err = false := by
  have hv : (v0 = v1) = False := eq_false (fun he => h he.symm)
  constructor <;>
  simp +decide [c8World, stateSet, mkState, mkProjection, mkCombiner, subUser, subscribeFresh,
    pipeSubscribe, setNode, jsSet, emptyWorld, FUEL, doNotify, runListeners, invoke,
    clearCache, hv]

/-- Claim C8, witness at `v0 = 0`, `v1 = 1`, identity projections. -/
theorem C8_diamond_double_notification_witness :
    (stateSet FUEL (c8World (Val.i 0) (fun v => v) (fun v => v)) 0 (Val.i 1)).log
      = [.call 7, .call 7] ∧
    (stateSet FUEL (c8World (Val.i 0) (fun v => v) (fun v => v)) 0 (Val.i 1)).err = false :=
  C8_diamond_double_notification (Val.i 0) (Val.i 1) (fun v => v) (fun v => v) (by decide)

/-- Claim C9: when a `subscribe` call has succeeded for listener
reference `a`, a second `subscribe` of the identical reference on the
same pipe returns the structured duplicate error instead of
registering a second subscription. -/
theorem C9_duplicate_subscribe_throws (w w2 : World) (nid t : Nat) (a : LAction)
    (h : pipeSubscribe w nid a = .ok (w2, t)) :
    pipeSubscribe w2 nid a =
      .error ⟨"The {listener} has already subscribed. Was this intentional?", a⟩ := by
  rcases hn : w.nodes[nid]? with _ | node
  · simp only [pipeSubscribe, hn] at h
    exact Except.noConfusion h
  · simp only [pipeSubscribe, hn] at h
    by_cases hm : (some a) ∈ node.listeners
    · rw [if_pos hm] at h
      simp at h
    · rw [if_neg hm] at h
      simp only [Except.ok.injEq, Prod.mk.injEq] at h
      obtain ⟨hw2, ht⟩ := h
      have hlt : nid < w.nodes.length := by
        by_contra hge
        rw [List.getElem?_eq_none (Nat.le_of_not_lt hge)] at hn
        exact Option.noConfusion hn
      have hn2 : w2.nodes[nid]? = some ({ node with
          listenerIndex := node.listenerIndex + 1,
          listeners := jsSet node.listeners node.listenerIndex a }) := by
        rw [← hw2]
        simp only [setNode]
        exact getElem?_set_self' _ _ _ (by simpa using hlt)
      simp only [pipeSubscribe, hn2]
      rw [if_pos (jsSet_mem node.listeners node.listenerIndex a)]

/-- Claim C9, witness: subscribing user listener `3` twice to a fresh
`State`. -/
theorem C9_duplicate_subscribe_throws_witness :
    pipeSubscribe c9World 0 (.call 3) =
      .error ⟨"The {listener} has already subscribed. Was this intentional?", .call 3⟩ :=
  C9_duplicate_subscribe_throws ((mkState emptyWorld (Val.i 0)).1) c9World 0 0 (.call 3) rfl

/-- Claim C10: a freshly constructed `State` has `oldValue` equal to
its initial value (never `undefined`), and it stays so across any
sequence of `set` calls that do not change the value. -/
theorem C10_initial_old_value (v : Val) (vs : List Val) (h : ∀ x ∈ vs, x = v) :
    stateOldValue (stateSets FUEL 0 (stateWorld v) vs) 0 = v ∧
    stateValue (stateSets FUEL 0 (stateWorld v) vs) 0 = v := by
  have hfix : stateSets FUEL 0 (stateWorld v) vs = stateWorld v := by
    induction vs with
    | nil => rfl
    | cons x xs ih =>
      have hx : x = v := h x (List.mem_cons_self x xs)
      subst hx
      have hstep : stateSet FUEL (stateWorld x) 0 x = stateWorld x := by
        simp [stateWorld, stateSet, mkState, emptyWorld, setNode]
      rw [stateSets, hstep]
      exact ih (fun y hy => h y (List.mem_cons_of_mem x hy))
  rw [hfix]
  exact ⟨rfl, rfl⟩

/-- Claim C10, witness: initial value `5`, twice re-set to `5`. -/
theorem C10_initial_old_value_witness :
    stateOldValue (stateSets FUEL 0 (stateWorld (Val.i 5)) [Val.i 5, Val.i 5]) 0 = Val.i 5 ∧
    stateValue (stateSets FUEL 0 (stateWorld (Val.i 5)) [Val.i 5, Val.i 5]) 0 = Val.i 5 :=
  C10_initial_old_value (Val.i 5) [Val.i 5, Val.i 5] (by decide)

end PleasePipe
